import Mathlib

/-!
Verification development for the notification delivery service.

The definitions below are a shallow embedding of the delivery reliability
engine in `app/delivery_manager.py`, the manual-retry endpoint in
`app/main.py`, and the message paginator in `app/telegram_formatter.py`.

Modelling conventions:
* Python `str` text manipulated by the paginator is modelled as `List Char`
  (`Text`), so `len` is `List.length` and `str.strip()` is an explicit
  `strip` over whitespace characters.
* Timestamps are seconds as `Nat`; `datetime.now()` is an explicit `now`
  argument.
* The external channel senders (Telegram API, SMTP, WhatsApp API) are an
  oracle `wire : DeliveryChannel → Bool` giving the transport outcome; the
  contact-address extraction that happens *before* the wire call inside each
  `_send_*_notification` method is embedded faithfully.
* The asynchronous `asyncio.create_task(self._schedule_retry ...)` calls are
  recorded as a list of `(channel, delay)` effects in the step output; the
  guard `_schedule_retry` applies when a timer fires is `schedule_retry_fires`.
* The mutual recursion `_attempt_delivery → _handle_delivery_failure →
  _try_fallback_channels → _attempt_delivery` is bounded by an explicit
  `fuel` argument (Python recursion depth); with `max_retries = 3` the real
  synchronous cascade has depth ≤ 2, so any fuel ≥ 2 reproduces it exactly.
* Record fields `notification_id`/`submission_id`/`delivery_confirmation`
  are opaque identifiers/metadata never read by the control logic and are
  omitted from the record structure.
-/

/-- `DeliveryChannel` enum of `delivery_manager.py` (telegram/email/whatsapp/sms). -/
inductive DeliveryChannel where
  | telegram
  | email
  | whatsapp
  | sms
deriving DecidableEq

/-- `DeliveryStatus` enum of `delivery_manager.py`. -/
inductive DeliveryStatus where
  | pending
  | sending
  | sent
  | failed
  | retrying
  | cancelled
deriving DecidableEq

/-- `ContactInfo` model (`models.py`): `additional_info` is a string-keyed map,
embedded as an association list. -/
structure ContactInfo where
  name : String
  contact_type : String
  contact_value : String
  additional_info : List (String × String)
deriving DecidableEq

/-- `dict.get(key)` on `additional_info`. -/
def lookupInfo (k : String) (m : List (String × String)) : Option String :=
  (m.find? (fun p => p.1 == k)).map Prod.snd

/-- `NotificationDeliveryStatus`: the per-notification delivery record. -/
structure NotificationDeliveryStatus where
  channel : DeliveryChannel
  status : DeliveryStatus
  attempts : Nat
  max_attempts : Nat
  error_message : Option String
  last_attempt : Option Nat
deriving DecidableEq

/-- `self.retry_delays = [30, 120, 300, 900]`. -/
def retry_delays : List Nat := [30, 120, 300, 900]

/-- `self.max_retries = 3`. -/
def max_retries : Nat := 3

/-- `self.fallback_channels` priority mapping; `dict.get(ch, [])` yields `[]`
for sms. -/
def fallback_channels : DeliveryChannel → List DeliveryChannel
  | .telegram => [.email, .whatsapp]
  | .email => [.telegram, .whatsapp]
  | .whatsapp => [.email, .telegram]
  | .sms => []

/-- `self.retry_delays[min(attempts - 1, len(self.retry_delays) - 1)]`.
For `attempts = 0` Python computes index `min(-1, 3) = -1`, which wraps to the
last entry `900`; for `attempts ≥ 1` it is the table indexed by `attempts - 1`
clamped to the last entry. -/
def retry_delay_for (attempts : Nat) : Nat :=
  if attempts = 0 then 900
  else retry_delays.getD (min (attempts - 1) (retry_delays.length - 1)) 0

/-- `_has_contact_info_for_channel`: the key-membership test
`"k" in contact_info.additional_info` is `lookupInfo` being `some`. -/
def has_contact_info_for_channel (ci : ContactInfo) : DeliveryChannel → Bool
  | .telegram => ci.contact_type == "telegram"
      || (lookupInfo "telegram_id" ci.additional_info).isSome
  | .email => ci.contact_type == "email"
      || (lookupInfo "email" ci.additional_info).isSome
  | .whatsapp => ci.contact_type == "whatsapp"
      || (lookupInfo "whatsapp" ci.additional_info).isSome
  | .sms => ci.contact_type == "phone"
      || (lookupInfo "phone" ci.additional_info).isSome

/-- Destination extraction of `_send_telegram_notification`: contact value when
the contact type matches, otherwise `additional_info.get("telegram_id")`;
Python's falsy test `if not chat_id` rejects both `None` and `""`. -/
def telegram_chat_id (ci : ContactInfo) : Option String :=
  let v := if ci.contact_type == "telegram" then some ci.contact_value
           else lookupInfo "telegram_id" ci.additional_info
  match v with
  | some s => if s == "" then none else some s
  | none => none

/-- Destination extraction of `_send_email_notification`. -/
def email_address (ci : ContactInfo) : Option String :=
  let v := if ci.contact_type == "email" then some ci.contact_value
           else lookupInfo "email" ci.additional_info
  match v with
  | some s => if s == "" then none else some s
  | none => none

/-- Destination extraction of `_send_whatsapp_notification`. -/
def whatsapp_number (ci : ContactInfo) : Option String :=
  let v := if ci.contact_type == "whatsapp" then some ci.contact_value
           else lookupInfo "whatsapp" ci.additional_info
  match v with
  | some s => if s == "" then none else some s
  | none => none

/-- The per-channel send methods `_send_*_notification`: each first extracts a
destination address (failing with its fixed diagnostic when absent), then
performs the wire call through the transport oracle; `_send_sms_notification`
is a stub that always fails. Returns `(success, error_message)` as in the
source. -/
def channel_send (wire : DeliveryChannel → Bool) (ci : ContactInfo) :
    DeliveryChannel → Bool × Option String
  | .telegram =>
    match telegram_chat_id ci with
    | none => (false, some "No Telegram chat ID available")
    | some _ =>
      if wire .telegram then (true, none) else (false, some "telegram send failed")
  | .email =>
    match email_address ci with
    | none => (false, some "No email address available")
    | some _ =>
      if wire .email then (true, none) else (false, some "email send failed")
  | .whatsapp =>
    match whatsapp_number ci with
    | none => (false, some "No WhatsApp number available")
    | some _ =>
      if wire .whatsapp then (true, none) else (false, some "whatsapp send failed")
  | .sms => (false, some "SMS delivery not implemented")

/-- Output of one synchronous engine cascade: the mutated record, the retry
timer tasks created by `asyncio.create_task(self._schedule_retry ...)` as
`(channel, delay)` pairs, the channels attempted in order, and the boolean the
innermost `_attempt_delivery` returned. -/
structure StepOut where
  record : NotificationDeliveryStatus
  sched : List (DeliveryChannel × Nat)
  trace : List DeliveryChannel
  ok : Bool
deriving DecidableEq

/-- The `for fallback_channel in fallback_channels:` loop body of
`_try_fallback_channels`, parameterized by the attempt function it re-enters:
channels without contact info are skipped; otherwise `attempts` is reset to 0,
`channel` is switched, and an attempt is made; on success the function returns;
when the loop ends the record's status is set to `failed`. -/
def floop_with (ci : ContactInfo)
    (att : NotificationDeliveryStatus → DeliveryChannel → StepOut) :
    NotificationDeliveryStatus → List DeliveryChannel → StepOut
  | r, [] => ⟨{r with status := .failed}, [], [], false⟩
  | r, fb :: rest =>
    if has_contact_info_for_channel ci fb then
      let a := att {r with attempts := 0, channel := fb} fb
      if a.ok then ⟨a.record, a.sched, a.trace, true⟩
      else
        let k := floop_with ci att a.record rest
        ⟨k.record, a.sched ++ k.sched, a.trace ++ k.trace, k.ok⟩
    else floop_with ci att r rest

/-- `_handle_delivery_failure`, parameterized by the attempt function used by
fallback resolution: below the attempt limit it sets status `retrying` and
creates one same-channel retry timer with the backoff delay; at or above the
limit it runs `_try_fallback_channels` on the failed channel's priority list. -/
def handle_with (ci : ContactInfo)
    (att : NotificationDeliveryStatus → DeliveryChannel → StepOut)
    (r : NotificationDeliveryStatus) (failed_channel : DeliveryChannel) : StepOut :=
  if r.attempts < r.max_attempts then
    ⟨{r with status := .retrying},
      [(failed_channel, retry_delay_for r.attempts)], [], false⟩
  else
    floop_with ci att r (fallback_channels failed_channel)

/-- `_attempt_delivery`: status→sending, increment `attempts`, stamp
`last_attempt`, run the channel send; on success status→sent and return true;
on failure record the error, run the failure handler, and return false.
`fuel` bounds the recursion depth through fallback resolution. -/
def attempt_delivery (wire : DeliveryChannel → Bool) (ci : ContactInfo) (now : Nat) :
    Nat → NotificationDeliveryStatus → DeliveryChannel → StepOut
  | 0, r, _ => ⟨r, [], [], false⟩
  | fuel + 1, r, ch =>
    let r1 : NotificationDeliveryStatus :=
      {r with status := .sending, attempts := r.attempts + 1, last_attempt := some now}
    match channel_send wire ci ch with
    | (true, _) => ⟨{r1 with status := .sent}, [], [ch], true⟩
    | (false, err) =>
      let h := handle_with ci (attempt_delivery wire ci now fuel)
        {r1 with error_message := err} ch
      ⟨h.record, h.sched, ch :: h.trace, false⟩

/-- `_handle_delivery_failure` proper. -/
def handle_delivery_failure (wire : DeliveryChannel → Bool) (ci : ContactInfo)
    (now fuel : Nat) (r : NotificationDeliveryStatus) (ch : DeliveryChannel) : StepOut :=
  handle_with ci (attempt_delivery wire ci now fuel) r ch

/-- `_try_fallback_channels` proper. -/
def try_fallback_channels (wire : DeliveryChannel → Bool) (ci : ContactInfo)
    (now fuel : Nat) (r : NotificationDeliveryStatus) (ch : DeliveryChannel) : StepOut :=
  floop_with ci (attempt_delivery wire ci now fuel) r (fallback_channels ch)

/-- `send_enhanced_notification`: creates the record in state pending with
`attempts = 0` and `max_attempts = self.max_retries`, then performs the first
attempt synchronously. -/
def send_enhanced_notification (wire : DeliveryChannel → Bool) (ci : ContactInfo)
    (now fuel : Nat) (primary : DeliveryChannel) : StepOut :=
  attempt_delivery wire ci now fuel
    ⟨primary, .pending, 0, max_retries, none, none⟩ primary

/-- The guard `_schedule_retry` checks when its timer fires: the deferred
attempt runs only if the record is still in retrying status. -/
def schedule_retry_fires (r : NotificationDeliveryStatus) : Bool :=
  r.status == .retrying

/-- One record's treatment by an iteration of `_process_retry_queue`: a
retrying record whose backoff delay has elapsed since `last_attempt` is set to
status `failed` ("This would need the original request - in production, store
it. For now, just mark as failed"); no delivery attempt is made. -/
def process_retry_record (now : Nat) (r : NotificationDeliveryStatus) :
    NotificationDeliveryStatus :=
  if r.status == .retrying then
    match r.last_attempt with
    | some t =>
      if retry_delay_for r.attempts ≤ now - t then {r with status := .failed} else r
    | none => r
  else r

/-- Result of the manual-retry endpoint. -/
inductive RetryResult where
  | notFound
  | notRetryable
  | ok (r : NotificationDeliveryStatus)
deriving DecidableEq

/-- `retry_enhanced_notification` endpoint (`main.py`): 404 when the record is
absent, 400 when its status is not in `["failed", "retrying"]`, otherwise
reset `attempts` to 0, clear `error_message`, and leave the record in
retrying status. -/
def retry_enhanced_notification (q : Option NotificationDeliveryStatus) : RetryResult :=
  match q with
  | none => .notFound
  | some r =>
    if r.status == .failed || r.status == .retrying then
      .ok {r with status := .retrying, attempts := 0, error_message := none}
    else .notRetryable

/-- Aggregate returned by `get_delivery_stats`; rates are exact rationals in
place of Python floats. -/
structure DeliveryStats where
  total : Nat
  sent : Nat
  failed : Nat
  pending : Nat
  success_rate : ℚ
  failure_rate : ℚ
deriving DecidableEq

/-- `get_delivery_stats` over the store's records: `pending` counts the
pending/sending/retrying statuses; rates are `count / total * 100` guarded by
`total > 0`. -/
def get_delivery_stats (store : List NotificationDeliveryStatus) : DeliveryStats :=
  let total := store.length
  let sent := (store.filter (fun d => d.status == DeliveryStatus.sent)).length
  let failed := (store.filter (fun d => d.status == DeliveryStatus.failed)).length
  let pending := (store.filter (fun d =>
    d.status == DeliveryStatus.pending || d.status == DeliveryStatus.sending
      || d.status == DeliveryStatus.retrying)).length
  ⟨total, sent, failed, pending,
    if 0 < total then (sent : ℚ) / (total : ℚ) * 100 else 0,
    if 0 < total then (failed : ℚ) / (total : ℚ) * 100 else 0⟩

/-!
Embedding of the paginator `TelegramBusinessOfferFormatter.format_message_parts`
(`telegram_formatter.py`). Text is `List Char`; `max_message_length = 4096` in
the source, kept as a parameter `maxLen`.
-/

/-- Python text. -/
abbrev Text := List Char

/-- Whitespace characters recognised by Python's `str.strip()` for the ASCII
range used here. -/
def isSpaceChar (c : Char) : Bool :=
  c == ' ' || c == '\t' || c == '\n' || c == '\r' || c.val == 11 || c.val == 12

/-- Leading-whitespace removal. -/
def lstrip (s : Text) : Text := s.dropWhile isSpaceChar

/-- Trailing-whitespace removal. -/
def rstrip (s : Text) : Text := (s.reverse.dropWhile isSpaceChar).reverse

/-- Python `str.strip()`. -/
def strip (s : Text) : Text := rstrip (lstrip s)

/-- The `"\n\n"` joiner appended after the title and after every section. -/
def nl2 : Text := ['\n', '\n']

/-- The body `full_message` accumulates after the title: every section's
content followed by `"\n\n"`. -/
def sectionsBlob (sections : List Text) : Text :=
  (sections.map (fun s => s ++ nl2)).flatten

/-- The `for section in template.sections:` loop of the multi-message branch of
`format_message_parts`: when appending `section + "\n\n"` would push
`current_message` past the limit, the stripped current message is closed and a
new one starts with that section; after the loop the final message is appended
when its stripped form is nonempty. -/
def splitLoop (maxLen : Nat) : List Text → Text → List Text → List Text
  | [], current, acc =>
    if strip current ≠ [] then acc ++ [strip current] else acc
  | s :: rest, current, acc =>
    let sc := s ++ nl2
    if maxLen < (current ++ sc).length then
      splitLoop maxLen rest sc (acc ++ [strip current])
    else
      splitLoop maxLen rest (current ++ sc) acc

/-- `format_message_parts`: the single-message fast path when the full message
fits, otherwise the greedy split starting from `title + "\n\n"`. -/
def format_message_parts (maxLen : Nat) (title : Text) (sections : List Text) :
    List Text :=
  if (title ++ nl2 ++ sectionsBlob sections).length ≤ maxLen then
    [strip (title ++ nl2 ++ sectionsBlob sections)]
  else splitLoop maxLen sections (title ++ nl2) []

/-! Concrete fixtures used by witnesses and counterexamples. -/

/-- Transport oracle that always succeeds. -/
def wireAllOk : DeliveryChannel → Bool := fun _ => true

/-- Transport oracle that always fails. -/
def wireAllFail : DeliveryChannel → Bool := fun _ => false

/-- Contact reachable on telegram, email and whatsapp. -/
def ciAllChannels : ContactInfo :=
  ⟨"u", "telegram", "123", [("email", "e@x"), ("whatsapp", "w1")]⟩

/-- Contact with only a phone entry: no usable telegram destination. -/
def ciPhoneOnly : ContactInfo := ⟨"u", "phone", "123", []⟩

/-- Contact reachable on telegram (chat) and email, not whatsapp. -/
def ciChatEmail : ContactInfo := ⟨"u", "telegram", "123", [("email", "e@x")]⟩

/-- Contact reachable on email only. -/
def ciEmailOnly : ContactInfo := ⟨"u", "other", "c", [("email", "e@x")]⟩

/-! Engine invariants used to reason about fallback cascades. -/

/-- `floop_with` never changes `max_attempts` when the attempt function it
re-enters does not. -/
theorem floop_with_max_attempts (ci : ContactInfo)
    (att : NotificationDeliveryStatus → DeliveryChannel → StepOut)
    (hatt : ∀ r ch, (att r ch).record.max_attempts = r.max_attempts) :
    ∀ (l : List DeliveryChannel) (r : NotificationDeliveryStatus),
      (floop_with ci att r l).record.max_attempts = r.max_attempts := by
  intro l
  induction l with
  | nil => intro r; rfl
  | cons fb rest ih =>
    intro r
    simp only [floop_with]
    split
    · split
      · simpa using hatt _ _
      · exact (ih _).trans (by simpa using hatt _ _)
    · exact ih r

/-- `_attempt_delivery` never changes `max_attempts`. -/
theorem attempt_delivery_max_attempts (wire : DeliveryChannel → Bool)
    (ci : ContactInfo) (now : Nat) :
    ∀ (fuel : Nat) (r : NotificationDeliveryStatus) (ch : DeliveryChannel),
      (attempt_delivery wire ci now fuel r ch).record.max_attempts = r.max_attempts := by
  intro fuel
  induction fuel with
  | zero => intro r ch; rfl
  | succ n ih =>
    intro r ch
    simp only [attempt_delivery]
    rcases hcs : channel_send wire ci ch with ⟨b, e⟩
    cases b
    · simp only [handle_with]
      split
      · rfl
      · exact floop_with_max_attempts ci _ ih _ _
    · rfl

/-- A fresh attempt on a record with `attempts = 0` and `max_attempts = 3`
can only schedule a retry timer for the channel it attempted. -/
theorem attempt_delivery_sched_of_reset (wire : DeliveryChannel → Bool)
    (ci : ContactInfo) (now fuel : Nat) (r : NotificationDeliveryStatus)
    (ch : DeliveryChannel) (hmax : r.max_attempts = 3) (h0 : r.attempts = 0) :
    ∀ p ∈ (attempt_delivery wire ci now fuel r ch).sched, p.1 = ch := by
  cases fuel with
  | zero => intro p hp; simp [attempt_delivery] at hp
  | succ n =>
    intro p hp
    simp only [attempt_delivery] at hp
    rcases hcs : channel_send wire ci ch with ⟨b, e⟩
    rw [hcs] at hp
    cases b
    · simp [handle_with, h0, hmax] at hp
      rw [hp]
    · simp at hp

/-- Every retry timer a fallback cascade schedules is for a channel of the
list being iterated (given the engine's `max_attempts = 3` policy). -/
theorem floop_with_sched_mem (wire : DeliveryChannel → Bool) (ci : ContactInfo)
    (now fuel : Nat) :
    ∀ (l : List DeliveryChannel) (r : NotificationDeliveryStatus),
      r.max_attempts = 3 →
      ∀ p ∈ (floop_with ci (attempt_delivery wire ci now fuel) r l).sched,
        p.1 ∈ l := by
  intro l
  induction l with
  | nil => intro r _ p hp; simp [floop_with] at hp
  | cons fb rest ih =>
    intro r hmax p hp
    simp only [floop_with] at hp
    by_cases hc : has_contact_info_for_channel ci fb
    · rw [if_pos hc] at hp
      split at hp
      · have := attempt_delivery_sched_of_reset wire ci now fuel
          {r with attempts := 0, channel := fb} fb hmax rfl p (by simpa using hp)
        simp [this]
      · simp only [StepOut.mk.injEq] at hp
        rcases List.mem_append.mp (by simpa using hp) with h1 | h2
        · have := attempt_delivery_sched_of_reset wire ci now fuel
            {r with attempts := 0, channel := fb} fb hmax rfl p h1
          simp [this]
        · have hm : (attempt_delivery wire ci now fuel
              {r with attempts := 0, channel := fb} fb).record.max_attempts = 3 := by
            rw [attempt_delivery_max_attempts]; exact hmax
          have := ih _ hm p h2
          simp [this]
    · rw [if_neg hc] at hp
      have := ih r hmax p hp
      simp [this]

/-- No channel appears in its own fallback priority list. -/
theorem channel_not_in_own_fallback : ∀ ch : DeliveryChannel, ch ∉ fallback_channels ch := by
  intro ch
  cases ch <;> decide

/-- C1: with `attempt_limit = 3`, a failed attempt schedules a same-channel
retry exactly while `attempts < 3`, with the delay drawn from the backoff
table at index `attempts - 1` clamped to the last entry (attempt 1 → 30s,
attempt 2 → 120s); when the failed attempt has `attempts = 3` the handler
invokes fallback resolution and no same-channel retry timer is created. -/
theorem handle_failure_backoff_policy
    (wire : DeliveryChannel → Bool) (ci : ContactInfo) (now fuel : Nat)
    (r : NotificationDeliveryStatus) (ch : DeliveryChannel)
    (hmax : r.max_attempts = 3) :
    (r.attempts < 3 →
      handle_delivery_failure wire ci now fuel r ch =
        ⟨{r with status := .retrying}, [(ch, retry_delay_for r.attempts)], [], false⟩) ∧
    (r.attempts = 1 →
      handle_delivery_failure wire ci now fuel r ch =
        ⟨{r with status := .retrying}, [(ch, 30)], [], false⟩) ∧
    (r.attempts = 2 →
      handle_delivery_failure wire ci now fuel r ch =
        ⟨{r with status := .retrying}, [(ch, 120)], [], false⟩) ∧
    (3 ≤ r.attempts →
      handle_delivery_failure wire ci now fuel r ch =
        try_fallback_channels wire ci now fuel r ch ∧
      ∀ d : Nat, (ch, d) ∉ (handle_delivery_failure wire ci now fuel r ch).sched) := by
  refine ⟨?_, ?_, ?_, ?_⟩
  · intro h
    unfold handle_delivery_failure handle_with
    rw [hmax, if_pos h]
  · intro h
    unfold handle_delivery_failure handle_with
    rw [hmax, h, if_pos (by norm_num)]
    rfl
  · intro h
    unfold handle_delivery_failure handle_with
    rw [hmax, h, if_pos (by norm_num)]
    rfl
  · intro h
    have hnl : ¬ (r.attempts < r.max_attempts) := by rw [hmax]; omega
    refine ⟨?_, ?_⟩
    · unfold handle_delivery_failure handle_with try_fallback_channels
      rw [if_neg hnl]
    · intro d hd
      unfold handle_delivery_failure handle_with at hd
      rw [if_neg hnl] at hd
      exact channel_not_in_own_fallback ch
        (floop_with_sched_mem wire ci now fuel (fallback_channels ch) r hmax (ch, d) hd)

/-- Record fixture: first attempt on telegram just failed. -/
def rAttempt1 : NotificationDeliveryStatus := ⟨.telegram, .sending, 1, 3, none, some 0⟩

/-- Witness for C1 at a concrete input: the failure of attempt 1 schedules a
30-second same-channel retry. -/
theorem handle_failure_backoff_policy_witness :
    handle_delivery_failure wireAllOk ciPhoneOnly 0 0 rAttempt1 .telegram =
      ⟨{rAttempt1 with status := .retrying}, [(.telegram, 30)], [], false⟩ :=
  (handle_failure_backoff_policy wireAllOk ciPhoneOnly 0 0 rAttempt1 .telegram rfl).2.1 rfl

/-- A fallback list in which no channel has usable contact data only sets the
record's status to `failed`. -/
theorem floop_with_no_contact (ci : ContactInfo)
    (att : NotificationDeliveryStatus → DeliveryChannel → StepOut) :
    ∀ (l : List DeliveryChannel) (r : NotificationDeliveryStatus),
      (∀ fb ∈ l, has_contact_info_for_channel ci fb = false) →
      floop_with ci att r l = ⟨{r with status := .failed}, [], [], false⟩ := by
  intro l
  induction l with
  | nil => intro r _; rfl
  | cons fb rest ih =>
    intro r h
    simp only [floop_with]
    rw [if_neg (by simp [h fb (by simp)])]
    exact ih r (fun x hx => h x (by simp [hx]))

/-- Exact outcome of fallback resolution from telegram when email is the only
usable fallback contact, split on the email send outcome. -/
theorem fallback_email_case (wire : DeliveryChannel → Bool) (ci : ContactInfo)
    (now fuel : Nat) (r : NotificationDeliveryStatus) (hmax : r.max_attempts = 3)
    (he : has_contact_info_for_channel ci .email = true)
    (hw : has_contact_info_for_channel ci .whatsapp = false) :
    ((channel_send wire ci .email).1 = true →
      try_fallback_channels wire ci now (fuel+1) r .telegram =
        ⟨⟨.email, .sent, 1, r.max_attempts, r.error_message, some now⟩, [], [.email], true⟩) ∧
    ((channel_send wire ci .email).1 = false →
      try_fallback_channels wire ci now (fuel+1) r .telegram =
        ⟨⟨.email, .failed, 1, r.max_attempts, (channel_send wire ci .email).2, some now⟩,
          [(.email, 30)], [.email], false⟩) := by
  rcases hcs : channel_send wire ci .email with ⟨b, e⟩
  cases b
  · refine ⟨by simp, fun _ => ?_⟩
    simp [try_fallback_channels, fallback_channels, floop_with, attempt_delivery,
      handle_with, he, hw, hcs, hmax, retry_delay_for, retry_delays]
  · refine ⟨fun _ => ?_, by simp⟩
    simp [try_fallback_channels, fallback_channels, floop_with, attempt_delivery,
      handle_with, he, hw, hcs, hmax]

/-- C2: fallback resolution walks the failed channel's fixed priority list in
order and attempts the first channel with usable contact data — for failed
telegram with contact data for email only, email is attempted next (attempts
reset to 0 before the attempt, hence 1 after it; `current_channel` set to
email) and whatsapp is never attempted; when no channel of the fallback list
has usable contact data the record's state becomes the terminal failed
("Exhausted") state. -/
theorem fallback_priority_resolution
    (wire : DeliveryChannel → Bool) (ci : ContactInfo) (now fuel : Nat)
    (r : NotificationDeliveryStatus) (hmax : r.max_attempts = 3) :
    (has_contact_info_for_channel ci .email = true →
     has_contact_info_for_channel ci .whatsapp = false →
      ((try_fallback_channels wire ci now (fuel+1) r .telegram).trace = [.email] ∧
       (try_fallback_channels wire ci now (fuel+1) r .telegram).record.channel = .email ∧
       (try_fallback_channels wire ci now (fuel+1) r .telegram).record.attempts = 1 ∧
       ((channel_send wire ci .email).1 = true →
         (try_fallback_channels wire ci now (fuel+1) r .telegram).record.status = .sent) ∧
       ((channel_send wire ci .email).1 = false →
         (try_fallback_channels wire ci now (fuel+1) r .telegram).record.status = .failed ∧
         (try_fallback_channels wire ci now (fuel+1) r .telegram).sched = [(.email, 30)]))) ∧
    (∀ ch, (∀ fb ∈ fallback_channels ch, has_contact_info_for_channel ci fb = false) →
      try_fallback_channels wire ci now fuel r ch =
        ⟨{r with status := .failed}, [], [], false⟩) := by
  constructor
  · intro he hw
    have hc := fallback_email_case wire ci now fuel r hmax he hw
    cases hb : (channel_send wire ci .email).1
    · have heq := hc.2 hb
      rw [heq]
      refine ⟨rfl, rfl, rfl, fun h => ?_, fun _ => ⟨rfl, rfl⟩⟩
      simp at h
    · have heq := hc.1 hb
      rw [heq]
      refine ⟨rfl, rfl, rfl, fun _ => rfl, fun h => ?_⟩
      simp at h
  · intro ch hno
    unfold try_fallback_channels
    exact floop_with_no_contact ci _ _ r hno

/-- Record fixture: telegram exhausted its three attempts. -/
def rExhausted3 : NotificationDeliveryStatus := ⟨.telegram, .sending, 3, 3, none, some 0⟩

/-- Witness for C2 at a concrete input: with email-only contact data, failed
telegram falls back to one email attempt and, that failing too, the record
ends failed ("Exhausted"). -/
theorem fallback_priority_resolution_witness :
    (try_fallback_channels wireAllFail ciEmailOnly 0 1 rExhausted3 .telegram).trace =
      [.email] ∧
    (try_fallback_channels wireAllFail ciEmailOnly 0 1 rExhausted3 .telegram).record.status =
      .failed := by
  have h := (fallback_priority_resolution wireAllFail ciEmailOnly 0 0 rExhausted3 rfl).1
    (by decide) (by decide)
  exact ⟨h.1, (h.2.2.2.2 (by decide)).1⟩

/-- Counterexample for C3: with contact data for both fallback channels and a
failing transport, after the single failed email fallback attempt the loop
immediately attempts whatsapp as well, and the record ends failed, so the
scheduled email retry's still-retrying guard is false and no retry cycle runs. -/
theorem fallback_retry_preempted_cex :
    (try_fallback_channels wireAllFail ciAllChannels 0 9
        ⟨.telegram, .sending, 3, 3, none, none⟩ .telegram).trace = [.email, .whatsapp] ∧
    (try_fallback_channels wireAllFail ciAllChannels 0 9
        ⟨.telegram, .sending, 3, 3, none, none⟩ .telegram).sched =
      [(.email, 30), (.whatsapp, 30)] ∧
    schedule_retry_fires (try_fallback_channels wireAllFail ciAllChannels 0 9
        ⟨.telegram, .sending, 3, 3, none, none⟩ .telegram).record = false := by
  decide

/-- C3 (amended): when the attempt on a fallback channel fails, a same-channel
retry timer is created (attempts = 1 < limit), but the fallback loop does not
wait for it — it proceeds immediately to the next usable channel in the list,
and when no fallback succeeds the loop finally sets the record's status to
failed, so the pending retry timers' still-retrying guard fails and the normal
retry cycle never actually runs for the fallback channel. -/
theorem fallback_retry_preempted
    (wire : DeliveryChannel → Bool) (now fuel : Nat) (r : NotificationDeliveryStatus)
    (hmax : r.max_attempts = 3)
    (he : wire .email = false) (hw : wire .whatsapp = false) :
    (try_fallback_channels wire ciAllChannels now (fuel+1) r .telegram).trace =
      [.email, .whatsapp] ∧
    (try_fallback_channels wire ciAllChannels now (fuel+1) r .telegram).sched =
      [(.email, 30), (.whatsapp, 30)] ∧
    (try_fallback_channels wire ciAllChannels now (fuel+1) r .telegram).record.status =
      .failed ∧
    (try_fallback_channels wire ciAllChannels now (fuel+1) r .telegram).record.channel =
      .whatsapp ∧
    schedule_retry_fires
      (try_fallback_channels wire ciAllChannels now (fuel+1) r .telegram).record = false := by
  simp [try_fallback_channels, fallback_channels, floop_with, attempt_delivery,
    handle_with, channel_send, email_address, whatsapp_number, lookupInfo,
    has_contact_info_for_channel, ciAllChannels, he, hw, hmax, retry_delay_for,
    retry_delays, schedule_retry_fires]

/-- Witness for C3's amended statement at a concrete input. -/
theorem fallback_retry_preempted_witness :
    (try_fallback_channels wireAllFail ciAllChannels 0 8 rExhausted3 .telegram).trace =
      [.email, .whatsapp] ∧
    (try_fallback_channels wireAllFail ciAllChannels 0 8 rExhausted3 .telegram).sched =
      [(.email, 30), (.whatsapp, 30)] ∧
    (try_fallback_channels wireAllFail ciAllChannels 0 8 rExhausted3 .telegram).record.status =
      .failed ∧
    (try_fallback_channels wireAllFail ciAllChannels 0 8 rExhausted3 .telegram).record.channel =
      .whatsapp ∧
    schedule_retry_fires
      (try_fallback_channels wireAllFail ciAllChannels 0 8 rExhausted3 .telegram).record =
      false :=
  fallback_retry_preempted wireAllFail 0 7 rExhausted3 rfl rfl rfl

/-- C10: fallback resolution is keyed only by the channel that just failed and
the record keeps no memory of channels already tried — on a record whose email
attempts are exhausted, with contact data for chat (telegram) and email, the
failure handler re-attempts telegram (the first entry of email's fallback
list), resetting attempts and switching `current_channel` back to it, rather
than settling the record into the terminal failed state without an attempt. -/
theorem fallback_memoryless_reattempts_chat
    (wire : DeliveryChannel → Bool) (now fuel : Nat) (r : NotificationDeliveryStatus)
    (hmax : r.max_attempts = 3) (hatt : r.attempts = 3) :
    (handle_delivery_failure wire ciChatEmail now (fuel+1) r .email).trace = [.telegram] ∧
    (handle_delivery_failure wire ciChatEmail now (fuel+1) r .email).record.channel =
      .telegram ∧
    (handle_delivery_failure wire ciChatEmail now (fuel+1) r .email).record.attempts = 1 ∧
    (wire .telegram = true →
      (handle_delivery_failure wire ciChatEmail now (fuel+1) r .email).record.status =
        .sent) ∧
    (wire .telegram = false →
      (handle_delivery_failure wire ciChatEmail now (fuel+1) r .email).record.status =
        .failed ∧
      (handle_delivery_failure wire ciChatEmail now (fuel+1) r .email).sched =
        [(.telegram, 30)]) := by
  cases ht : wire .telegram <;>
    simp [handle_delivery_failure, handle_with, floop_with, attempt_delivery,
      fallback_channels, channel_send, telegram_chat_id, lookupInfo,
      has_contact_info_for_channel, ciChatEmail, hmax, hatt, ht,
      retry_delay_for, retry_delays]

/-- Record fixture: email exhausted its three attempts. -/
def rEmailExhausted : NotificationDeliveryStatus := ⟨.email, .sending, 3, 3, none, some 0⟩

/-- Witness for C10 at a concrete input. -/
theorem fallback_memoryless_reattempts_chat_witness :
    (handle_delivery_failure wireAllFail ciChatEmail 0 5 rEmailExhausted .email).trace =
      [.telegram] ∧
    (handle_delivery_failure wireAllFail ciChatEmail 0 5 rEmailExhausted .email).record.channel =
      .telegram ∧
    (handle_delivery_failure wireAllFail ciChatEmail 0 5 rEmailExhausted .email).record.status =
      .failed := by
  have h := fallback_memoryless_reattempts_chat wireAllFail 0 4 rEmailExhausted rfl rfl
  exact ⟨h.1, h.2.1, (h.2.2.2.2 rfl).1⟩

/-- Counterexample for C4: submitting for the telegram channel with a
phone-only contact does not fail at submission and does not immediately
exhaust — a record is created and the missing contact drives the ordinary
retry cycle (status retrying, one attempt recorded, a 30s same-channel retry
scheduled). -/
theorem submit_missing_contact_cex :
    send_enhanced_notification wireAllOk ciPhoneOnly 0 9 .telegram =
      ⟨⟨.telegram, .retrying, 1, 3, some "No Telegram chat ID available", some 0⟩,
        [(.telegram, 30)], [.telegram], false⟩ ∧
    (send_enhanced_notification wireAllOk ciPhoneOnly 0 9 .telegram).record.status ≠
      .failed := by
  decide

/-- C4 (amended): a submission whose request has no usable contact address for
the requested telegram channel still creates a delivery record; the missing
contact surfaces as an ordinary send failure ("No Telegram chat ID available")
that drives the retry cycle: the record enters retrying with one attempt and a
30-second same-channel retry is scheduled, no submission-time error exists. -/
theorem submit_missing_contact_enters_retry
    (wire : DeliveryChannel → Bool) (ci : ContactInfo) (now fuel : Nat)
    (ht : (ci.contact_type == "telegram") = false)
    (hl : lookupInfo "telegram_id" ci.additional_info = none) :
    send_enhanced_notification wire ci now (fuel+1) .telegram =
      ⟨⟨.telegram, .retrying, 1, 3, some "No Telegram chat ID available", some now⟩,
        [(.telegram, 30)], [.telegram], false⟩ := by
  simp [send_enhanced_notification, attempt_delivery, channel_send, telegram_chat_id,
    ht, hl, handle_with, max_retries, retry_delay_for, retry_delays]

/-- Witness for C4's amended statement at a concrete input. -/
theorem submit_missing_contact_enters_retry_witness :
    send_enhanced_notification wireAllFail ciPhoneOnly 5 3 .telegram =
      ⟨⟨.telegram, .retrying, 1, 3, some "No Telegram chat ID available", some 5⟩,
        [(.telegram, 30)], [.telegram], false⟩ :=
  submit_missing_contact_enters_retry wireAllFail ciPhoneOnly 5 2 rfl rfl

/-- C5: manual retry succeeds exactly when the record exists with status
failed ("Exhausted") or retrying — then attempts reset to 0, the error is
cleared and the record is left retrying; records in pending, sending or sent
("Delivered") status get `notRetryable`, and a missing record `notFound`. -/
theorem retry_endpoint_policy :
    retry_enhanced_notification none = .notFound ∧
    (∀ r : NotificationDeliveryStatus, r.status = .failed ∨ r.status = .retrying →
      retry_enhanced_notification (some r) =
        .ok {r with status := .retrying, attempts := 0, error_message := none}) ∧
    (∀ r : NotificationDeliveryStatus,
      r.status = .pending ∨ r.status = .sending ∨ r.status = .sent →
      retry_enhanced_notification (some r) = .notRetryable) ∧
    (∀ (r res : NotificationDeliveryStatus),
      retry_enhanced_notification (some r) = .ok res →
      (r.status = .failed ∨ r.status = .retrying) ∧
      res.status = .retrying ∧ res.attempts = 0 ∧ res.error_message = none) := by
  refine ⟨rfl, ?_, ?_, ?_⟩
  · intro r h
    rcases h with h | h <;> simp [retry_enhanced_notification, h]
  · intro r h
    rcases h with h | h | h <;> simp [retry_enhanced_notification, h]
  · intro r res h
    by_cases hc : (r.status == DeliveryStatus.failed || r.status == DeliveryStatus.retrying) = true
    · simp only [retry_enhanced_notification, hc, if_true, RetryResult.ok.injEq] at h
      subst h
      refine ⟨?_, rfl, rfl, rfl⟩
      simpa using hc
    · simp only [retry_enhanced_notification, hc, if_false] at h
      cases h

/-- Record fixture: an exhausted (failed) record. -/
def rFailedW : NotificationDeliveryStatus := ⟨.email, .failed, 1, 3, some "boom", some 7⟩

/-- Record fixture: a delivered (sent) record. -/
def rSentW : NotificationDeliveryStatus := ⟨.telegram, .sent, 1, 3, none, some 7⟩

/-- Witness for C5 at concrete inputs: retry re-arms a failed record and
rejects a delivered one. -/
theorem retry_endpoint_policy_witness :
    retry_enhanced_notification (some rFailedW) =
      .ok {rFailedW with status := .retrying, attempts := 0, error_message := none} ∧
    retry_enhanced_notification (some rSentW) = .notRetryable :=
  ⟨retry_endpoint_policy.2.1 rFailedW (Or.inl rfl),
   retry_endpoint_policy.2.2.1 rSentW (Or.inr (Or.inr rfl))⟩

/-- C6 evaluation at the failing input: a retrying record with one attempt,
31 seconds past its 30-second backoff deadline, is marked failed by the sweep
iteration instead of being given a fresh delivery attempt. -/
theorem sweep_marks_overdue_retrying_failed :
    process_retry_record 31 ⟨.telegram, .retrying, 1, 3, some "e1", some 0⟩ =
      ⟨.telegram, .failed, 1, 3, some "e1", some 0⟩ := by
  decide

/-- The three status buckets of `get_delivery_stats` partition any store that
contains no record in the never-assigned cancelled status. -/
theorem stats_filter_sum (store : List NotificationDeliveryStatus)
    (h : ∀ r ∈ store, r.status ≠ .cancelled) :
    (store.filter (fun d => d.status == DeliveryStatus.sent)).length
      + (store.filter (fun d => d.status == DeliveryStatus.failed)).length
      + (store.filter (fun d => d.status == DeliveryStatus.pending
          || d.status == DeliveryStatus.sending
          || d.status == DeliveryStatus.retrying)).length
      = store.length := by
  induction store with
  | nil => rfl
  | cons r rest ih =>
    have hr : r.status ≠ .cancelled := h r (by simp)
    have ihh := ih (fun x hx => h x (by simp [hx]))
    cases hs : r.status
    case cancelled => exact absurd hs hr
    all_goals simp only [List.filter_cons, hs]
    all_goals simp
    all_goals omega

/-- C9 (amended): over a store with no record in the unreachable cancelled
status, the sent ("delivered"), failed ("exhausted") and pending/sending/
retrying ("in-flight") counts sum to the total; the rate is 0 for an empty
store (no division error) and otherwise equals `sent / total * 100` — a
percentage, not the bare `delivered_count / total` ratio. -/
theorem stats_totals_and_rate (store : List NotificationDeliveryStatus)
    (h : ∀ r ∈ store, r.status ≠ .cancelled) :
    (get_delivery_stats store).sent + (get_delivery_stats store).failed
        + (get_delivery_stats store).pending = (get_delivery_stats store).total ∧
    (store.length = 0 → (get_delivery_stats store).success_rate = 0) ∧
    (0 < store.length →
      (get_delivery_stats store).success_rate =
        ((get_delivery_stats store).sent : ℚ) / ((get_delivery_stats store).total : ℚ)
          * 100) := by
  refine ⟨?_, ?_, ?_⟩
  · simpa [get_delivery_stats] using stats_filter_sum store h
  · intro h0
    simp [get_delivery_stats, h0]
  · intro h0
    simp [get_delivery_stats, h0]

/-- Store fixture: one sent and one failed record. -/
def storeCex : List NotificationDeliveryStatus :=
  [⟨.telegram, .sent, 1, 3, none, some 0⟩, ⟨.email, .failed, 3, 3, some "x", some 0⟩]

/-- Store fixture: a single record in the never-assigned cancelled status. -/
def storeCancelled : List NotificationDeliveryStatus :=
  [⟨.telegram, .cancelled, 0, 3, none, none⟩]

/-- Counterexample for C9: with one delivered record out of two, the code's
rate field is the percentage 50, not the claimed ratio `delivered/total = 1/2`;
and over a store holding a (never actually assigned) cancelled record the
three counts do not sum to the total. -/
theorem stats_rate_not_ratio_cex :
    ((get_delivery_stats storeCancelled).sent + (get_delivery_stats storeCancelled).failed
        + (get_delivery_stats storeCancelled).pending ≠
      (get_delivery_stats storeCancelled).total) ∧
    (get_delivery_stats storeCex).sent = 1 ∧
    (get_delivery_stats storeCex).total = 2 ∧
    (get_delivery_stats storeCex).success_rate = 50 ∧
    (get_delivery_stats storeCex).success_rate ≠
      ((get_delivery_stats storeCex).sent : ℚ) / ((get_delivery_stats storeCex).total : ℚ) := by
  refine ⟨by decide, rfl, rfl, ?_, ?_⟩
  · rw [show (get_delivery_stats storeCex).success_rate = ((1 : ℕ) : ℚ) / ((2 : ℕ) : ℚ) * 100 from rfl]
    norm_num
  · rw [show (get_delivery_stats storeCex).success_rate = ((1 : ℕ) : ℚ) / ((2 : ℕ) : ℚ) * 100 from rfl,
      show (get_delivery_stats storeCex).sent = 1 from rfl,
      show (get_delivery_stats storeCex).total = 2 from rfl]
    norm_num

/-- Witness for C9's amended statement at a concrete store. -/
theorem stats_totals_and_rate_witness :
    (get_delivery_stats storeCex).sent + (get_delivery_stats storeCex).failed
        + (get_delivery_stats storeCex).pending = (get_delivery_stats storeCex).total ∧
    (get_delivery_stats storeCex).success_rate =
      ((get_delivery_stats storeCex).sent : ℚ) / ((get_delivery_stats storeCex).total : ℚ)
        * 100 := by
  have h := stats_totals_and_rate storeCex (by decide)
  exact ⟨h.1, h.2.2 (by decide)⟩

/-! Lemmas about `strip` and the paginator. -/

/-- Stripping never lengthens a text. -/
theorem length_strip_le (s : Text) : (strip s).length ≤ s.length := by
  unfold strip rstrip lstrip
  calc ((lstrip s).reverse.dropWhile isSpaceChar).reverse.length
      ≤ (lstrip s).reverse.length := by
        rw [List.length_reverse]
        exact (List.dropWhile_sublist _).length_le
    _ ≤ s.length := by
        rw [List.length_reverse]
        exact (List.dropWhile_sublist _).length_le

/-- `dropWhile` is the identity on an extension of a nonempty list it already
leaves unchanged. -/
theorem dropWhile_append_of_ne (p : Char → Bool) (l m : Text)
    (hl : l.dropWhile p = l) (hne : l ≠ []) :
    (l ++ m).dropWhile p = l ++ m := by
  obtain ⟨c, l2, rfl⟩ := List.exists_cons_of_ne_nil hne
  have hp : ¬ (p c = true) := by
    intro hpc
    rw [List.dropWhile_cons, if_pos hpc] at hl
    have hlen := congrArg List.length hl
    have hle := (List.dropWhile_sublist (l := l2) p).length_le
    simp at hlen
    omega
  rw [List.cons_append, List.dropWhile_cons, if_neg hp]

/-- A text with no leading/trailing whitespace, nonempty. -/
def cleanText (s : Text) : Prop := s ≠ [] ∧ lstrip s = s ∧ rstrip s = s

instance : DecidablePred cleanText := fun s => by
  unfold cleanText
  infer_instance

/-- Right-strip fixpoints viewed through `reverse`. -/
theorem rstrip_eq_self_iff (s : Text) :
    rstrip s = s ↔ s.reverse.dropWhile isSpaceChar = s.reverse := by
  unfold rstrip
  constructor
  · intro h
    have := congrArg List.reverse h
    simpa using this
  · intro h
    rw [h]
    simp

/-- A clean prefix survives `lstrip` of any extension. -/
theorem lstrip_append_of_clean (s t : Text) (h : lstrip s = s) (hne : s ≠ []) :
    lstrip (s ++ t) = s ++ t :=
  dropWhile_append_of_ne isSpaceChar s t h hne

/-- A clean suffix survives `rstrip` of any extension. -/
theorem rstrip_append_of_clean (s t : Text) (h : rstrip s = s) (hne : s ≠ []) :
    rstrip (t ++ s) = t ++ s := by
  unfold rstrip
  rw [List.reverse_append]
  rw [dropWhile_append_of_ne isSpaceChar s.reverse t.reverse
    ((rstrip_eq_self_iff s).mp h) (by simpa using hne)]
  simp

/-- `rstrip` removes exactly a trailing `"\n\n"` after a right-clean text. -/
theorem rstrip_append_nl2 (s : Text) (h : rstrip s = s) :
    rstrip (s ++ nl2) = s := by
  unfold rstrip
  rw [List.reverse_append]
  have h1 : nl2.reverse = ['\n', '\n'] := rfl
  rw [h1]
  show (List.dropWhile isSpaceChar ('\n' :: '\n' :: s.reverse)).reverse = s
  rw [List.dropWhile_cons, if_pos (by decide), List.dropWhile_cons, if_pos (by decide),
    (rstrip_eq_self_iff s).mp h]
  simp

/-- Invariant of the accumulating `current_message`: no leading whitespace and
it ends in exactly the `"\n\n"` joiner past its stripped core. -/
def goodText (cur : Text) : Prop := lstrip cur = cur ∧ rstrip cur ++ nl2 = cur

theorem goodText_ne_nil {cur : Text} (hg : goodText cur) : cur ≠ [] := by
  intro h
  rw [h] at hg
  have := hg.2
  simp [nl2] at this

theorem goodText_init (title : Text) (h : cleanText title) : goodText (title ++ nl2) := by
  obtain ⟨hne, hl, hr⟩ := h
  constructor
  · exact lstrip_append_of_clean title nl2 hl hne
  · rw [rstrip_append_nl2 title hr]

theorem goodText_extend (cur s : Text) (hg : goodText cur) (hs : cleanText s) :
    goodText (cur ++ (s ++ nl2)) := by
  obtain ⟨hsne, hsl, hsr⟩ := hs
  have hcne : cur ≠ [] := goodText_ne_nil hg
  constructor
  · exact lstrip_append_of_clean cur (s ++ nl2) hg.1 hcne
  · have h1 : cur ++ (s ++ nl2) = (cur ++ s) ++ nl2 := by simp
    rw [h1, rstrip_append_nl2 (cur ++ s) (rstrip_append_of_clean s cur hsr hsne)]

theorem goodText_strip_append (cur : Text) (hg : goodText cur) :
    strip cur ++ nl2 = cur := by
  unfold strip
  rw [hg.1, hg.2]

theorem goodText_strip_ne (cur : Text) (hg : goodText cur) : strip cur ≠ [] := by
  intro h
  have h2 := goodText_strip_append cur hg
  rw [h] at h2
  simp at h2
  have := hg.1
  rw [← h2] at this
  exact absurd this (by decide)

theorem sectionsBlob_cons (s : Text) (rest : List Text) :
    sectionsBlob (s :: rest) = (s ++ nl2) ++ sectionsBlob rest := by
  simp [sectionsBlob]

theorem goodText_append_blob (cur : Text) (l : List Text) (hg : goodText cur)
    (hl : ∀ s ∈ l, cleanText s) : goodText (cur ++ sectionsBlob l) := by
  induction l generalizing cur with
  | nil => simpa [sectionsBlob] using hg
  | cons s rest ih =>
    rw [sectionsBlob_cons, ← List.append_assoc]
    exact ih (cur ++ (s ++ nl2))
      (goodText_extend cur s hg (hl s (by simp)))
      (fun x hx => hl x (by simp [hx]))

/-- Re-appending the joiner to each chunk of the split loop reconstructs the
accumulated message text exactly. -/
theorem splitLoop_flatten (maxLen : Nat) :
    ∀ (l : List Text) (cur : Text) (acc : List Text),
      goodText cur → (∀ s ∈ l, cleanText s) →
      ((splitLoop maxLen l cur acc).map (fun c => c ++ nl2)).flatten =
        (acc.map (fun c => c ++ nl2)).flatten ++ cur ++ sectionsBlob l := by
  intro l
  induction l with
  | nil =>
    intro cur acc hg _
    simp only [splitLoop]
    rw [if_pos (goodText_strip_ne cur hg)]
    simp [sectionsBlob, goodText_strip_append cur hg]
  | cons s rest ih =>
    intro cur acc hg hc
    have hs : cleanText s := hc s (by simp)
    simp only [splitLoop]
    split
    · rw [ih (s ++ nl2) (acc ++ [strip cur]) (goodText_init s hs)
        (fun x hx => hc x (by simp [hx]))]
      rw [sectionsBlob_cons]
      simp [goodText_strip_append cur hg]
    · rw [ih (cur ++ (s ++ nl2)) acc (goodText_extend cur s hg hs)
        (fun x hx => hc x (by simp [hx]))]
      rw [sectionsBlob_cons]
      simp

/-- C8 (amended): for a nonempty whitespace-clean title and nonempty
whitespace-clean sections, re-appending the `"\n\n"` joiner to each returned
chunk and concatenating reproduces exactly `title ++ "\n\n" ++` the joined
section texts — every section appears unaltered, in order, and nothing but
sections, the title and join characters occurs in the output. Chunk
boundaries strip a section's surrounding whitespace, and whitespace-only
sections can be dropped, so the unrestricted claim fails. -/
theorem paginate_rejoin (maxLen : Nat) (title : Text) (sections : List Text)
    (hT : cleanText title) (hS : ∀ s ∈ sections, cleanText s) :
    ((format_message_parts maxLen title sections).map (fun c => c ++ nl2)).flatten =
      title ++ nl2 ++ sectionsBlob sections := by
  unfold format_message_parts
  split
  · have hgood : goodText (title ++ (nl2 ++ sectionsBlob sections)) := by
      have := goodText_append_blob (title ++ nl2) sections (goodText_init title hT) hS
      simpa [List.append_assoc] using this
    simp [goodText_strip_append _ hgood]
  · rw [splitLoop_flatten maxLen sections (title ++ nl2) []
      (goodText_init title hT) hS]
    simp

/-- Counterexample for C8: a whitespace-only section is dropped entirely — its
text does not appear in any returned chunk. -/
theorem paginate_rejoin_cex :
    format_message_parts 3 ("T".toList) [(" ".toList)] = ["T".toList] ∧
    (' ' ∉ (format_message_parts 3 ("T".toList) [(" ".toList)]).flatten) := by
  decide

/-- Witness for C8's amended statement at a concrete clean input. -/
theorem paginate_rejoin_witness :
    ((format_message_parts 10 ("T".toList) ["aa".toList, "bb".toList, "cc".toList]).map
        (fun c => c ++ nl2)).flatten =
      "T".toList ++ nl2 ++ sectionsBlob ["aa".toList, "bb".toList, "cc".toList] :=
  paginate_rejoin 10 ("T".toList) ["aa".toList, "bb".toList, "cc".toList]
    (by decide) (by decide)

/-- A clean section re-emerges unchanged from chunk stripping. -/
theorem chunk_is_stripped_section (s : Text) (hs : cleanText s) :
    strip (s ++ nl2) = s := by
  unfold strip
  rw [lstrip_append_of_clean s nl2 hs.2.1 hs.1, rstrip_append_nl2 s hs.2.2]

/-- Every chunk the split loop emits is within the limit, a stripped single
section, or the stripped title block. -/
theorem splitLoop_chunks (maxLen : Nat) (title : Text) (sections : List Text) :
    ∀ (l : List Text) (cur : Text) (acc : List Text),
      (∀ s ∈ l, s ∈ sections) →
      (cur.length ≤ maxLen ∨ cur = title ++ nl2 ∨ ∃ s ∈ sections, cur = s ++ nl2) →
      (∀ c ∈ acc, c.length ≤ maxLen ∨ (∃ s ∈ sections, c = strip (s ++ nl2)) ∨
        c = strip (title ++ nl2)) →
      ∀ c ∈ splitLoop maxLen l cur acc,
        c.length ≤ maxLen ∨ (∃ s ∈ sections, c = strip (s ++ nl2)) ∨
          c = strip (title ++ nl2) := by
  intro l
  induction l with
  | nil =>
    intro cur acc _ hcur hacc c hcmem
    simp only [splitLoop] at hcmem
    split at hcmem
    · rcases List.mem_append.mp hcmem with h | h
      · exact hacc c h
      · have hc : c = strip cur := by simpa using h
        subst hc
        rcases hcur with h1 | h1 | h1
        · exact Or.inl (le_trans (length_strip_le cur) h1)
        · exact Or.inr (Or.inr (by rw [h1]))
        · obtain ⟨s, hs, rfl⟩ := h1
          exact Or.inr (Or.inl ⟨s, hs, rfl⟩)
    · exact hacc c hcmem
  | cons s rest ih =>
    intro cur acc hsub hcur hacc c hcmem
    simp only [splitLoop] at hcmem
    split at hcmem
    · refine ih (s ++ nl2) (acc ++ [strip cur])
        (fun x hx => hsub x (by simp [hx]))
        (Or.inr (Or.inr ⟨s, hsub s (by simp), rfl⟩)) ?_ c hcmem
      intro x hx
      rcases List.mem_append.mp hx with h | h
      · exact hacc x h
      · have hc : x = strip cur := by simpa using h
        subst hc
        rcases hcur with h1 | h1 | h1
        · exact Or.inl (le_trans (length_strip_le cur) h1)
        · exact Or.inr (Or.inr (by rw [h1]))
        · obtain ⟨t, ht, rfl⟩ := h1
          exact Or.inr (Or.inl ⟨t, ht, rfl⟩)
    · rename_i hlen
      refine ih (cur ++ (s ++ nl2)) acc
        (fun x hx => hsub x (by simp [hx]))
        (Or.inl ?_) hacc c hcmem
      omega

/-- C7 (amended): every returned chunk either fits within `max_chunk_length`,
or is a single section emitted stripped of surrounding whitespace (for a
whitespace-clean section the chunk is that section verbatim, so its length
equals the section's length), or is the stripped title block, which can also
exceed the limit on its own. -/
theorem paginate_chunk_bound (maxLen : Nat) (title : Text) (sections : List Text) :
    (∀ c ∈ format_message_parts maxLen title sections,
      c.length ≤ maxLen ∨ (∃ s ∈ sections, c = strip (s ++ nl2)) ∨
        c = strip (title ++ nl2)) ∧
    (∀ s : Text, cleanText s → strip (s ++ nl2) = s) := by
  constructor
  · intro c hc
    unfold format_message_parts at hc
    split at hc
    · rename_i hfit
      have hceq : c = strip (title ++ nl2 ++ sectionsBlob sections) := by simpa using hc
      subst hceq
      exact Or.inl (le_trans (length_strip_le _) hfit)
    · exact splitLoop_chunks maxLen title sections sections (title ++ nl2) []
        (fun x hx => hx) (Or.inr (Or.inl rfl)) (by simp) c hc
  · exact fun s hs => chunk_is_stripped_section s hs

/-- Title fixture exceeding the chunk limit of 5. -/
def titleCexC7 : Text := "abcdefghijkl".toList

/-- Section fixture within the chunk limit of 5. -/
def secCexC7 : Text := "ab".toList

/-- Counterexample for C7: with limit 5, the first returned chunk is the
12-character title block — it exceeds the limit yet is not a section, and its
length differs from the sole section's length. -/
theorem paginate_chunk_bound_cex :
    format_message_parts 5 titleCexC7 [secCexC7] = [titleCexC7, secCexC7] ∧
    5 < titleCexC7.length ∧
    titleCexC7 ≠ secCexC7 ∧
    titleCexC7.length ≠ secCexC7.length := by
  decide

/-- Witness for C7's amended statement at a concrete chunk. -/
theorem paginate_chunk_bound_witness :
    secCexC7.length ≤ 5 ∨ (∃ s ∈ [secCexC7], secCexC7 = strip (s ++ nl2)) ∨
      secCexC7 = strip (titleCexC7 ++ nl2) :=
  (paginate_chunk_bound 5 titleCexC7 [secCexC7]).1 secCexC7 (by decide)
